import Mathlib

/-
Verification of the expression parser/compiler core of django-reactive
(src/core/expressions.py and src/core/reactive_function.py).

The Python code is shallowly embedded: strings are `List Char` (with `String`
at the AST/codegen boundary), fallible code returns `Except PErr`, and the
non-structural recursions of the source (parse_expression recursing through
the try_parse family, and evaluation delegating through reactive variables)
are made total with an explicit fuel parameter; running out of fuel is a
distinguished error that no real Python execution produces.
-/

set_option maxRecDepth 4096

/-- Errors a Python run of the embedded code can surface.
`templateSyntaxError` models django's TemplateSyntaxError; for the
"Can't parse expression" raise in parse_expression the payload is the
offending substring the message carries. `unboundLocal` models the
UnboundLocalError raised when a loop variable is read without the loop body
ever having run. `outOfFuel` is an artifact of the fuel embedding only. -/
inductive PErr where
  | templateSyntaxError (payload : String)
  | unboundLocal
  | typeErr (msg : String)
  | keyError (key : String)
  | pyExn (msg : String)
  | outOfFuel
deriving DecidableEq, Repr

/-- ReactValType from core.base: the dynamically-typed values expressions
evaluate to (str, int, bool, None, list, dict). Dicts are insertion-ordered
association lists. -/
inductive ReactValType where
  | str (s : String)
  | int (n : Int)
  | bool (b : Bool)
  | pynone
  | list (elems : List ReactValType)
  | dict (entries : List (String × ReactValType))
deriving Repr

/-- Python dict insertion: an existing key keeps its position and gets the new
value, a new key is appended. -/
def pyDictInsert {α : Type} (entries : List (String × α)) (k : String) (v : α) :
    List (String × α) :=
  if entries.any (fun kv => kv.1 == k) then
    entries.map (fun kv => if kv.1 == k then (k, v) else kv)
  else
    entries ++ [(k, v)]

/-- Builds a Python dict from a key-value sequence (duplicate keys collapse,
last value wins), as `dict(...)` and dict comprehensions do. -/
def pyDictOfList {α : Type} (pairs : List (String × α)) : List (String × α) :=
  pairs.foldl (fun acc kv => pyDictInsert acc kv.1 kv.2) []

/-- Substring test over char lists, for Python `key in current` on a str. -/
def pyInStr (pat : List Char) : List Char → Bool
  | [] => pat.isEmpty
  | c :: rest => pat.isPrefixOf (c :: rest) || pyInStr pat rest

/-- Python `key in current` for a string key, as used by the Property walk
(expressions.py:325). dict: key membership; str: substring; list: membership,
where a str key can only equal a str element; int/bool/None: TypeError. -/
def ReactValType.pyHasKey : ReactValType → String → Except PErr Bool
  | .dict entries, key => .ok (entries.any (fun kv => kv.1 == key))
  | .str s, key => .ok (pyInStr key.toList s.toList)
  | .list elems, key =>
    .ok (elems.any (fun v => match v with | .str s => s == key | _ => false))
  | .int _, _ => .error (.typeErr "argument of type \x27int\x27 is not iterable")
  | .bool _, _ => .error (.typeErr "argument of type \x27bool\x27 is not iterable")
  | .pynone, _ => .error (.typeErr "argument of type \x27NoneType\x27 is not iterable")

/-- Python `current[key]` for a string key (expressions.py:326). Only a dict
supports string subscripts; str/list want integer indices. -/
def ReactValType.pyGetItem : ReactValType → String → Except PErr ReactValType
  | .dict entries, key =>
    match entries.find? (fun kv => kv.1 == key) with
    | some kv => .ok kv.2
    | Option.none => .error (.keyError key)
  | .str _, _ => .error (.typeErr "string indices must be integers")
  | .list _, _ => .error (.typeErr "list indices must be integers")
  | .int _, _ => .error (.typeErr "\x27int\x27 object is not subscriptable")
  | .bool _, _ => .error (.typeErr "\x27bool\x27 object is not subscriptable")
  | .pynone, _ => .error (.typeErr "\x27NoneType\x27 object is not subscriptable")

/-- Python `len(value)` (reactive_function.py:50). -/
def pyLen : ReactValType → Except PErr Int
  | .str s => .ok (Int.ofNat s.length)
  | .list l => .ok (Int.ofNat l.length)
  | .dict d => .ok (Int.ofNat d.length)
  | .int _ => .error (.typeErr "object of type \x27int\x27 has no len()")
  | .bool _ => .error (.typeErr "object of type \x27bool\x27 has no len()")
  | .pynone => .error (.typeErr "object of type \x27NoneType\x27 has no len()")

/-- The expression AST of expressions.py. One constructor per concrete class:
StringExpression, IntExpression, BoolExpression, NoneExpression,
ArrayExpression, DictExpression, VariableExpression, PropertyExpression,
SettablePropertyExpression. -/
inductive Expression where
  | str (val : String)
  | int (val : Int)
  | bool (val : Bool)
  | none
  | array (elements_expression : List Expression)
  | dict (dict_expression : List (String × Expression))
  | var (var_name : String)
  | property (root_expression : Expression) (key_path : List String)
  | settableProperty (root_expression : Expression) (key_path : List String)
deriving Repr

/-- isinstance(e, SettableExpression): only VariableExpression and
SettablePropertyExpression derive from SettableExpression. -/
def Expression.isSettable : Expression → Bool
  | .var _ => true
  | .settableProperty _ _ => true
  | _ => false

/-- External collaborator ReactVar (core.base): a live reactive variable with
generated-code accessors and its own defining expression. -/
structure ReactVar where
  js_get : String
  js_set : String → String
  js_notify : String
  expression : Expression

/-- External collaborator ReactContext (core.base): resolves a variable name
to an optional ReactVar. -/
structure ReactContext where
  search_var : String → Option ReactVar

/-- Modelled from the spec: `value_to_expression` (core.base, outside src/)
converts an arbitrary host value into an equivalent literal Expression node;
it is consumed by reduce and by Variable's unresolved-fallback path. -/
def value_to_expression : ReactValType → Expression
  | .str s => Expression.str s
  | .int n => Expression.int n
  | .bool b => Expression.bool b
  | .pynone => Expression.none
  | .list l => Expression.array (l.attach.map (fun x => value_to_expression x.1))
  | .dict d => Expression.dict (d.attach.map (fun x => (x.1.1, value_to_expression x.1.2)))
decreasing_by
  · have := List.sizeOf_lt_of_mem x.2
    simp only [ReactValType.list.sizeOf_spec]
    omega
  · have h1 := List.sizeOf_lt_of_mem x.2
    have h2 : sizeOf x.1.2 < sizeOf x.1 := by
      rcases x.1 with ⟨a, b⟩
      simp only [Prod.mk.sizeOf_spec]
      omega
    simp only [ReactValType.dict.sizeOf_spec]
    omega

/-- The delimiter pairs used by every smart_split call (expressions.py:8). -/
def common_delimiters : List (Char × Char) :=
  [('(', ')'), ('[', ']'), ('\x7b', '\x7d')]

/-- expressions.py:10-16: return the closing character paired with `char`,
or None when `char` opens no known delimiter. -/
def match_and_return_second (char : Char) (pairs : List (Char × Char)) : Option Char :=
  match pairs with
  | [] => Option.none
  | (first, second) :: rest =>
    if char == first then some second else match_and_return_second char rest

/-- Loop state of smart_split: `i` is the start index of the piece being
accumulated, `pieces` the substrings yielded so far, and `stack` the expected
closing characters (kept top-first here; the source appends and pops at the
end of its list). -/
structure SplitState where
  i : Nat
  pieces : List (List Char)
  stack : List Char
deriving Repr

/-- One iteration of the smart_split scan (expressions.py:25-38) at position
`loc` holding character `c`. With an empty stack: split on the separator, or
push the closing character of a known opener. With a non-empty stack: a match
with the expected top pops and ends the iteration; any other character falls
through to the opener check and, when it opens a known delimiter, pushes. -/
def smartSplitStep (full : List Char) (seperator : Char)
    (delimiters : List (Char × Char)) (st : SplitState) (loc : Nat) (c : Char) :
    SplitState :=
  match st.stack with
  | [] =>
    if c == seperator then
      { i := loc + 1, pieces := st.pieces ++ [(full.drop st.i).take (loc - st.i)], stack := [] }
    else
      match match_and_return_second c delimiters with
      | some d => { st with stack := [d] }
      | Option.none => st
  | top :: rest =>
    if c == top then
      { st with stack := rest }
    else
      match match_and_return_second c delimiters with
      | some d => { st with stack := d :: top :: rest }
      | Option.none => st

/-- Runs the smart_split scan over the remaining characters, `loc` being the
index of the first of them in `full`. -/
def smartSplitLoop (full : List Char) (seperator : Char)
    (delimiters : List (Char × Char)) : SplitState → Nat → List Char → SplitState
  | st, _, [] => st
  | st, loc, c :: rest =>
    smartSplitLoop full seperator delimiters
      (smartSplitStep full seperator delimiters st loc c) (loc + 1) rest

/-- smart_split (expressions.py:19-40): split on every separator occurrence
not nested inside an open delimiter; always ends with the trailing
(possibly empty) piece `expression[i:]`. -/
def smart_split (expression : List Char) (seperator : Char)
    (delimiters : List (Char × Char)) : List (List Char) :=
  let st := smartSplitLoop expression seperator delimiters ⟨0, [], []⟩ 0 expression
  st.pieces ++ [expression.drop st.i]

/-- Whitespace characters stripped at the boundaries (expressions.py:380). -/
def isBoundaryWS (c : Char) : Bool :=
  c == ' ' || c == '\t' || c == '\n'

/-- The first loop of remove_whitespaces_on_boundaries: index of the first
non-whitespace character; when the loop exhausts without a break the loop
variable keeps its last value, the final index. Called with `idx` the index
of the head of the remaining list. -/
def firstNonWSIdx : List Char → Nat → Nat
  | [], idx => idx - 1
  | c :: rest, idx =>
    if isBoundaryWS c then firstNonWSIdx rest (idx + 1) else idx

/-- The second loop, scanning `reversed(range(i, len(s)))`: `d` counts how
many indices above `i` remain to inspect; when the loop reaches `i` the result
is `i` whether or not the character there breaks. -/
def lastNonWSGo (s : List Char) (i : Nat) : Nat → Nat
  | 0 => i
  | d + 1 =>
    if isBoundaryWS (s.getD (i + d + 1) ' ') then lastNonWSGo s i d else i + d + 1

/-- Index of the last non-whitespace character at or after `i`. -/
def lastNonWS (s : List Char) (i : Nat) : Nat :=
  lastNonWSGo s i (s.length - 1 - i)

/-- remove_whitespaces_on_boundaries (expressions.py:378-387). On the empty
string the first loop body never runs, so reading `i` on line 383 raises an
UnboundLocalError; this is the non-syntax failure mode of parse_expression on
empty input. -/
def remove_whitespaces_on_boundaries (s : List Char) : Except PErr (List Char) :=
  match s with
  | [] => .error PErr.unboundLocal
  | _ :: _ =>
    let i := firstNonWSIdx s 0
    let j := lastNonWS s i
    .ok ((s.drop i).take (j + 1 - i))

/-- Python str.isnumeric restricted to ASCII digits, as the source uses it on
candidate integer literals. -/
def pyIsNumeric (s : List Char) : Bool :=
  !s.isEmpty && s.all Char.isDigit

/-- Python str.isidentifier (ASCII): a letter or underscore followed by
letters, digits or underscores. -/
def pyIsIdentifier (s : List Char) : Bool :=
  match s with
  | [] => false
  | c :: rest => (c.isAlpha || c == '_') && rest.all (fun d => d.isAlphanum || d == '_')

/-- int(expression) on an all-digits string. -/
def pyIntOfDigits (s : List Char) : Int :=
  Int.ofNat (s.foldl (fun acc c => 10 * acc + (c.toNat - 48)) 0)

/-- StringExpression.try_parse (expressions.py:83-88). The source requires
length at least 2, equal first and last characters, and then compares the
first character with the single-quote character twice (line 85 repeats
`== "'"`); the second comparison was evidently meant to be the double quote,
so as written only single-quoted literals are recognized. -/
def StringExpression.try_parse (expression : List Char) : Option Expression :=
  if decide (2 ≤ expression.length)
      && (expression.getD 0 ' ' == expression.getD (expression.length - 1) ' ')
      && (expression.getD 0 ' ' == '\x27' || expression.getD 0 ' ' == '\x27') then
    some (Expression.str (String.mk ((expression.drop 1).take (expression.length - 2))))
  else
    Option.none

/-- IntExpression.try_parse (expressions.py:103-108). -/
def IntExpression.try_parse (expression : List Char) : Option Expression :=
  if pyIsNumeric expression then
    some (Expression.int (pyIntOfDigits expression))
  else
    Option.none

/-- BoolExpression.try_parse (expressions.py:123-130). -/
def BoolExpression.try_parse (expression : List Char) : Option Expression :=
  if expression == "True".toList || expression == "true".toList then
    some (Expression.bool true)
  else if expression == "False".toList || expression == "false".toList then
    some (Expression.bool false)
  else
    Option.none

/-- NoneExpression.try_parse (expressions.py:145-150). -/
def NoneExpression.try_parse (expression : List Char) : Option Expression :=
  if expression == "None".toList || expression == "null".toList then
    some Expression.none
  else
    Option.none

/-- VariableExpression.try_parse (expressions.py:292-297). -/
def VariableExpression.try_parse (expression : List Char) : Option Expression :=
  if pyIsIdentifier expression then
    some (Expression.var (String.mk expression))
  else
    Option.none

/-- VariableExpression.var (expressions.py:252-258): fails fatally with a
plain Exception when no react context is supplied; otherwise returns the
optional resolution of the name. -/
def VariableExpression.var (var_name : String) (react_context : Option ReactContext) :
    Except PErr (Option ReactVar) :=
  match react_context with
  | Option.none =>
    .error (PErr.pyExn "Can\x27t evaluate a VariableExpression if react_context=None")
  | some context => .ok (context.search_var var_name)

/-- ArrayExpression.try_parse (expressions.py:173-183). The recursive call on
each comma piece is the `parse` parameter (parse_expression at one less
fuel); a failure there propagates, nothing is caught here. -/
def ArrayExpression.try_parse (parse : List Char → Except PErr Expression)
    (expression : List Char) : Except PErr (Option Expression) :=
  if !(decide (2 ≤ expression.length)
      && expression.getD 0 ' ' == '['
      && expression.getD (expression.length - 1) ' ' == ']') then
    .ok Option.none
  else do
    let interior := (expression.drop 1).take (expression.length - 2)
    let parts := smart_split interior ',' common_delimiters
    let elems ← parts.mapM parse
    .ok (some (Expression.array elems))

/-- DictExpression.split_part (expressions.py:219-230): find the first ':',
raise a TemplateSyntaxError when there is none, strip quotes off a key that
parses as a string literal, and parse the value. -/
def DictExpression.split_part (parse : List Char → Except PErr Expression)
    (part : List Char) : Except PErr (String × Expression) :=
  match part.findIdx? (fun c => c == ':') with
  | Option.none =>
    .error (PErr.templateSyntaxError "Can\x27t find key-value seperator \x27:\x27")
  | some seperator => do
    let key := part.take seperator
    let val_str := part.drop (seperator + 1)
    let key_str :=
      match StringExpression.try_parse key with
      | some (Expression.str v) => v
      | _ => String.mk key
    let val ← parse val_str
    .ok (key_str, val)

/-- The `dict(split_part(part) for part in parts)` argument sequence. -/
def DictExpression.parseParts (parse : List Char → Except PErr Expression)
    (parts : List (List Char)) : Except PErr (List (String × Expression)) :=
  parts.mapM (DictExpression.split_part parse)

/-- DictExpression.try_parse (expressions.py:209-235). The bare `except:` on
line 234 turns every failure inside the attempt into a no-match. The
fuel-exhaustion artifact of this embedding is re-raised instead of caught, so
an under-fuelled run errors out rather than silently differing from Python. -/
def DictExpression.try_parse (parse : List Char → Except PErr Expression)
    (expression : List Char) : Except PErr (Option Expression) :=
  if !(decide (2 ≤ expression.length)
      && expression.getD 0 ' ' == '\x7b'
      && expression.getD (expression.length - 1) ' ' == '\x7d') then
    .ok Option.none
  else
    let interior := (expression.drop 1).take (expression.length - 2)
    let parts := smart_split interior ',' common_delimiters
    match DictExpression.parseParts parse parts with
    | .error PErr.outOfFuel => .error PErr.outOfFuel
    | .error _ => .ok Option.none
    | .ok pairs => .ok (some (Expression.dict (pyDictOfList pairs)))

/-- PropertyExpression.try_parse (expressions.py:336-358). The root piece is
parsed with parse_expression, which raises on failure, so that failure
propagates out of try_parse (the `if root_expression is None` guard on line
345 is unreachable: parse_expression never returns None). Non-identifier
trailing segments yield a no-match. A Settable root selects
SettablePropertyExpression. -/
def PropertyExpression.try_parse (parse : List Char → Except PErr Expression)
    (expression : List Char) : Except PErr (Option Expression) :=
  let parts := smart_split expression '.' common_delimiters
  if decide (parts.length ≤ 1) then
    .ok Option.none
  else do
    let root_expression ← parse (parts.getD 0 [])
    let key_path := (parts.drop 1).map String.mk
    if key_path.all (fun key => pyIsIdentifier key.toList) then
      if root_expression.isSettable then
        .ok (some (Expression.settableProperty root_expression key_path))
      else
        .ok (some (Expression.property root_expression key_path))
    else
      .ok Option.none

/-- parse_expression (expressions.py:389-411): trim, unwrap a leading and
trailing parenthesis pair, then try each variant in the fixed source order
String, Bool, Int, None, Array, Dict, Variable, Property; exhaustion raises
a TemplateSyntaxError carrying the trimmed substring. Fuel bounds the
recursion depth; each nested parse_expression call runs at one less fuel. -/
def parse_expression : Nat → List Char → Except PErr Expression
  | 0, _ => .error PErr.outOfFuel
  | fuel + 1, expr0 => do
    let expression ← remove_whitespaces_on_boundaries expr0
    if expression.getD 0 ' ' == '('
        && expression.getD (expression.length - 1) ' ' == ')' then
      parse_expression fuel ((expression.drop 1).take (expression.length - 2))
    else
      match StringExpression.try_parse expression with
      | some exp => .ok exp
      | Option.none =>
      match BoolExpression.try_parse expression with
      | some exp => .ok exp
      | Option.none =>
      match IntExpression.try_parse expression with
      | some exp => .ok exp
      | Option.none =>
      match NoneExpression.try_parse expression with
      | some exp => .ok exp
      | Option.none => do
      match ← ArrayExpression.try_parse (parse_expression fuel) expression with
      | some exp => .ok exp
      | Option.none =>
      match ← DictExpression.try_parse (parse_expression fuel) expression with
      | some exp => .ok exp
      | Option.none =>
      match VariableExpression.try_parse expression with
      | some exp => .ok exp
      | Option.none => do
      match ← PropertyExpression.try_parse (parse_expression fuel) expression with
      | some exp => .ok exp
      | Option.none => .error (PErr.templateSyntaxError (String.mk expression))

/-- The key-path walk inside PropertyExpression.eval_initial
(expressions.py:324-329): successive `current[key]` steps, raising a
TemplateSyntaxError when a key is missing. It computes the final walked
value, which the source then discards (see Expression.eval_initial). The
source's error message interpolates `str(self)` and then a *non*-f-string
second half whose braces are literal; the `self` part is elided here since
its default repr is address-dependent and no claim reads this message. -/
def PropertyExpression.walk_key_path : ReactValType → List String → Except PErr ReactValType
  | current, [] => .ok current
  | current, key :: rest => do
    if (← ReactValType.pyHasKey current key) then
      let next ← ReactValType.pyGetItem current key
      PropertyExpression.walk_key_path next rest
    else
      .error (PErr.templateSyntaxError
        "Error while parsing expression: There is no key named \x7bkey\x7d in \x7bcurrent\x7d")

/-- eval_initial over every node class. Literals yield their value
(expressions.py:77,97,117,139); Array/Dict evaluate children
(expressions.py:159-160,195-196; the dict comprehension collapses duplicate
keys as Python dicts do); Variable (expressions.py:260-266) resolves and
delegates to the resolved variable's own expression, or yields the empty
string when unresolved; Property and SettableProperty (expressions.py:319-329)
evaluate the root and walk the key path, but the source has no return
statement on the success path, so a successful walk yields Python None.
Fuel is consumed at every recursion level. -/
def Expression.eval_initial : Nat → Expression → Option ReactContext → Except PErr ReactValType
  | 0, _, _ => .error PErr.outOfFuel
  | fuel + 1, e, react_context =>
    match e with
    | .str val => .ok (.str val)
    | .int val => .ok (.int val)
    | .bool val => .ok (.bool val)
    | Expression.none => .ok .pynone
    | .array elements_expression => do
      let vals ← elements_expression.mapM
        (fun ex => Expression.eval_initial fuel ex react_context)
      .ok (.list vals)
    | .dict dict_expression => do
      let pairs ← dict_expression.mapM (fun kv => do
        let v ← Expression.eval_initial fuel kv.2 react_context
        pure (kv.1, v))
      .ok (.dict (pyDictOfList pairs))
    | .var var_name => do
      match ← VariableExpression.var var_name react_context with
      | some v => Expression.eval_initial fuel v.expression react_context
      | Option.none => .ok (.str "")
    | .property root_expression key_path => do
      let root_val ← Expression.eval_initial fuel root_expression react_context
      let _walked ← PropertyExpression.walk_key_path root_val key_path
      .ok ReactValType.pynone
    | .settableProperty root_expression key_path => do
      let root_val ← Expression.eval_initial fuel root_expression react_context
      let _walked ← PropertyExpression.walk_key_path root_val key_path
      .ok ReactValType.pynone

/-- eval_js_and_hooks over every node class: generated JS plus the hook list
(hooks are the ReactVar objects themselves). Literals (expressions.py:80,100,
120,142) contribute no hooks; Array/Dict (expressions.py:162-171,198-207)
concatenate children's code and extend hooks left to right; Variable
(expressions.py:268-274) yields the resolved variable's js_get with itself as
the single hook, or falls back to value_to_expression('') when unresolved;
Property and SettableProperty (expressions.py:331-334) wrap the root's code
and forward its hooks. -/
def Expression.eval_js_and_hooks : Nat → Expression → Option ReactContext →
    Except PErr (String × List ReactVar)
  | 0, _, _ => .error PErr.outOfFuel
  | fuel + 1, e, react_context =>
    match e with
    | .str val => .ok ("\x27" ++ val ++ "\x27", [])
    | .int val => .ok (toString val, [])
    | .bool val => .ok (if val then "true" else "false", [])
    | Expression.none => .ok ("null", [])
    | .array elements_expression => do
      let results ← elements_expression.mapM
        (fun ex => Expression.eval_js_and_hooks fuel ex react_context)
      .ok ("[" ++ String.intercalate "," (results.map Prod.fst) ++ "]",
        (results.map Prod.snd).flatten)
    | .dict dict_expression => do
      let results ← dict_expression.mapM (fun kv => do
        let r ← Expression.eval_js_and_hooks fuel kv.2 react_context
        pure (kv.1, r))
      .ok ("\x7b" ++ String.intercalate ","
          (results.map (fun kr => kr.1 ++ ":" ++ kr.2.1)) ++ "\x7d",
        (results.map (fun kr => kr.2.2)).flatten)
    | .var var_name => do
      match ← VariableExpression.var var_name react_context with
      | some v => .ok (v.js_get, [v])
      | Option.none =>
        Expression.eval_js_and_hooks fuel (value_to_expression (.str "")) react_context
    | .property root_expression key_path => do
      let r ← Expression.eval_js_and_hooks fuel root_expression react_context
      .ok ("(" ++ r.1 ++ ")." ++ String.intercalate "." key_path, r.2)
    | .settableProperty root_expression key_path => do
      let r ← Expression.eval_js_and_hooks fuel root_expression react_context
      .ok ("(" ++ r.1 ++ ")." ++ String.intercalate "." key_path, r.2)

/-- js_notify of the Settable sub-protocol. Variable (expressions.py:284-290)
delegates to the resolved reactive variable and raises when unresolved;
SettableProperty (expressions.py:374-376) forwards to its root. Other node
classes do not implement SettableExpression, so calling js_notify on them is
a Python AttributeError. -/
def Expression.js_notify : Expression → Option ReactContext → Except PErr String
  | .var var_name, react_context => do
    match ← VariableExpression.var var_name react_context with
    | Option.none =>
      .error (PErr.templateSyntaxError
        ("No reactive variable named " ++ var_name ++ " was found"))
    | some v => .ok v.js_notify
  | .settableProperty root_expression _, react_context =>
    Expression.js_notify root_expression react_context
  | _, _ =>
    .error (PErr.typeErr "js_notify is only defined on SettableExpression nodes")

/-- js_set of the Settable sub-protocol. Variable (expressions.py:276-282)
delegates to the resolved variable's setter; SettableProperty
(expressions.py:369-372) emits the generated path expression, the assignment
and the root's notification code. -/
def Expression.js_set (fuel : Nat) : Expression → Option ReactContext → String →
    Except PErr String
  | .var var_name, react_context, _js_expression => do
    match ← VariableExpression.var var_name react_context with
    | Option.none =>
      .error (PErr.templateSyntaxError
        ("No reactive variable named " ++ var_name ++ " was found"))
    | some v => .ok (v.js_set _js_expression)
  | .settableProperty root_expression key_path, react_context, js_expression => do
    let r ← Expression.eval_js_and_hooks fuel
      (.settableProperty root_expression key_path) react_context
    let notify ← Expression.js_notify
      (.settableProperty root_expression key_path) react_context
    .ok (r.1 ++ " = " ++ js_expression ++ "; " ++ notify)
  | _, _, _ =>
    .error (PErr.typeErr "js_set is only defined on SettableExpression nodes")

/-- LengthFunction.validate_args (reactive_function.py:40-43). -/
def LengthFunction.validate_args (args : List Expression) : Except PErr Unit :=
  if args.length != 1 then
    .error (PErr.templateSyntaxError
      "Error while evaluating length function: there must be exactly one argument!")
  else
    .ok ()

/-- LengthFunction.eval_initial (reactive_function.py:45-50): validate, then
len() of the argument's initial value. -/
def LengthFunction.eval_initial (fuel : Nat) (reactive_context : Option ReactContext)
    (args : List Expression) : Except PErr ReactValType := do
  LengthFunction.validate_args args
  let array := args.getD 0 Expression.none
  let v ← Expression.eval_initial fuel array reactive_context
  let n ← pyLen v
  .ok (.int n)

/-- LengthFunction.eval_js (reactive_function.py:52-57): validate, then build
`(<arg-js>).length`. The source calls
`array.eval_js_and_hooks(reactive_context, delimiter)` but
Expression.eval_js_and_hooks (expressions.py:56) accepts only react_context,
so in Python the call raises TypeError before any code is generated. -/
def LengthFunction.eval_js (fuel : Nat) (reactive_context : Option ReactContext)
    (delimiter : String) (args : List Expression) : Except PErr String := do
  LengthFunction.validate_args args
  let _array := args.getD 0 Expression.none
  let _ := fuel
  let _ := delimiter
  let _ := reactive_context
  .error (PErr.typeErr
    "eval_js_and_hooks() takes 2 positional arguments but 3 were given")

/-- The ReactiveFunction contract (reactive_function.py:8-20) as a record of
its three operations. -/
structure ReactiveFunction where
  validate_args : List Expression → Except PErr Unit
  eval_initial : Nat → Option ReactContext → List Expression → Except PErr ReactValType
  eval_js : Nat → Option ReactContext → String → List Expression → Except PErr String

/-- The LengthFunction instance registered at import time. -/
def LengthFunction.fn : ReactiveFunction :=
  ⟨LengthFunction.validate_args, LengthFunction.eval_initial, LengthFunction.eval_js⟩

/-- The process-wide registry with its built-in entry
(reactive_function.py:59). -/
def ReactiveFunction.functions : List (String × ReactiveFunction) :=
  [("len", LengthFunction.fn)]

/-- A concrete reactive variable used by witnesses. -/
def sampleVar : ReactVar where
  js_get := "ctx.x.get()"
  js_set := fun code => "ctx.x.set(" ++ code ++ ")"
  js_notify := "ctx.x.notify()"
  expression := Expression.int 5

/-- A concrete reactive context resolving only the name `x`, used by
witnesses. -/
def sampleCtx : ReactContext where
  search_var := fun name => if name == "x" then some sampleVar else Option.none

/-- The per-position behaviour that claim C2 (and spec section 4.1) ascribes
to smart_split, written from the spec's words: while the stack is non-empty
the only action taken is to compare the character against the top (popping on
a match); any other character, separators and other openers included, is
ignored, so nothing is ever pushed while the stack is non-empty. With an
empty stack it coincides with the code. -/
def smartSplitStepClaim (full : List Char) (seperator : Char)
    (delimiters : List (Char × Char)) (st : SplitState) (loc : Nat) (c : Char) :
    SplitState :=
  match st.stack with
  | [] =>
    if c == seperator then
      { i := loc + 1, pieces := st.pieces ++ [(full.drop st.i).take (loc - st.i)], stack := [] }
    else
      match match_and_return_second c delimiters with
      | some d => { st with stack := [d] }
      | Option.none => st
  | top :: rest =>
    if c == top then { st with stack := rest } else st

/-- The claim-described scan, run like the code's scan. -/
def smartSplitClaimLoop (full : List Char) (seperator : Char)
    (delimiters : List (Char × Char)) : SplitState → Nat → List Char → SplitState
  | st, _, [] => st
  | st, loc, c :: rest =>
    smartSplitClaimLoop full seperator delimiters
      (smartSplitStepClaim full seperator delimiters st loc c) (loc + 1) rest

/-- The splitter claim C2 describes: identical to smart_split except that its
per-position step never pushes while the stack is non-empty. -/
def smart_split_claim (expression : List Char) (seperator : Char)
    (delimiters : List (Char × Char)) : List (List Char) :=
  let st := smartSplitClaimLoop expression seperator delimiters ⟨0, [], []⟩ 0 expression
  st.pieces ++ [expression.drop st.i]

/-- Last element of a wrapped list by index. -/
theorem getD_cons_append_last (a b : Char) (xs : List Char) :
    (a :: (xs ++ [b])).getD (xs.length + 1) ' ' = b := by
  induction xs with
  | nil => rfl
  | cons x rest ih =>
    simp only [List.cons_append, List.length_cons]
    exact ih

/-- Length of a wrapped list. -/
theorem length_cons_append (a b : Char) (xs : List Char) :
    (a :: (xs ++ [b])).length = xs.length + 2 := by
  simp

/-- Trimming a string whose first and last characters are not boundary
whitespace returns it unchanged. -/
theorem remove_ws_wrapped (a b : Char) (xs : List Char)
    (ha : isBoundaryWS a = false) (hb : isBoundaryWS b = false) :
    remove_whitespaces_on_boundaries (a :: (xs ++ [b])) = .ok (a :: (xs ++ [b])) := by
  unfold remove_whitespaces_on_boundaries
  have hfirst : firstNonWSIdx (a :: (xs ++ [b])) 0 = 0 := by
    unfold firstNonWSIdx
    rw [ha]
    simp
  have hlen : (a :: (xs ++ [b])).length = xs.length + 2 := length_cons_append a b xs
  have hlast : lastNonWS (a :: (xs ++ [b])) 0 = xs.length + 1 := by
    unfold lastNonWS
    rw [hlen]
    have : xs.length + 2 - 1 - 0 = xs.length + 1 := by omega
    rw [this]
    unfold lastNonWSGo
    rw [show 0 + xs.length + 1 = xs.length + 1 by omega]
    rw [getD_cons_append_last a b xs, hb]
    simp
  simp only [hfirst, hlast]
  rw [show xs.length + 1 + 1 - 0 = (a :: (xs ++ [b])).length by rw [hlen]; omega]
  simp

/-- The interior slice of a wrapped list. -/
theorem interior_cons_append (a b : Char) (xs : List Char) :
    ((a :: (xs ++ [b])).drop 1).take ((a :: (xs ++ [b])).length - 2) = xs := by
  simp [length_cons_append]

/-- C1: the claim says PropertyExpression.eval_initial returns the value
obtained by walking the root value through each key. The code walks the path
(here reaching the value 1) but has no return statement on the success path
(expressions.py:319-329), so eval_initial yields Python None instead of the
walked value: the claim is right about the intent and the code drops the
result. -/
theorem property_eval_initial_drops_walked_value :
    PropertyExpression.walk_key_path (.dict [("a", .int 1)]) ["a"] = .ok (.int 1) ∧
    Expression.eval_initial 10 (.property (.dict [("a", .int 1)]) ["a"]) Option.none
      = .ok ReactValType.pynone :=
  ⟨rfl, rfl⟩

/-- C2 counterexample: on the input `[(],x)` the code pushes the inner `(`
while already waiting for `]`, so the whole string stays one piece, whereas
the claimed never-push-while-non-empty behaviour would pop at `]` and then
split at the comma, giving two pieces. -/
theorem smart_split_pushes_inner_opener_counterexample :
    smart_split "[(],x)".toList ',' common_delimiters = ["[(],x)".toList] ∧
    smart_split_claim "[(],x)".toList ',' common_delimiters
      = ["[(]".toList, "x)".toList] ∧
    smart_split "[(],x)".toList ',' common_delimiters
      ≠ smart_split_claim "[(],x)".toList ',' common_delimiters :=
  ⟨rfl, rfl, by decide⟩

/-- C3 counterexample: parse_expression strips the outer characters of
`(a)(b)` even though they are not a matching pair, recursing on `a)(b`; the
resulting SyntaxError carries `a)(b`, not the whole substring the claim
predicts. -/
theorem parse_expression_unwraps_unmatched_parens_counterexample :
    parse_expression 5 "(a)(b)".toList = .error (PErr.templateSyntaxError "a)(b") ∧
    parse_expression 5 "(a)(b)".toList = parse_expression 4 "a)(b".toList ∧
    ("a)(b" : String) ≠ "(a)(b)" :=
  ⟨rfl, rfl, by decide⟩

/-- C4: the claim says PropertyExpression.try_parse returns no-match when the
first dotted segment fails to parse, so the whole-input SyntaxError names the
full text. In the code the root segment is parsed with parse_expression,
which raises; the error escapes try_parse and parse_expression, and it names
the first segment `1x`, not the full text `1x.y`. -/
theorem property_try_parse_propagates_root_error :
    PropertyExpression.try_parse (parse_expression 4) "1x.y".toList
      = .error (PErr.templateSyntaxError "1x") ∧
    parse_expression 5 "1x.y".toList = .error (PErr.templateSyntaxError "1x") ∧
    ("1x" : String) ≠ "1x.y" :=
  ⟨rfl, rfl, by decide⟩

/-- C6: the claim says any quote character delimits a String literal, double
quotes included. The code (expressions.py:85) compares the first character
with the single quote twice — evidently a typo for the double quote — so a
single-quoted literal parses but the double-quoted `"abc"`, despite having
length 5 with equal first and last quote characters, does not. -/
theorem string_try_parse_rejects_double_quotes :
    StringExpression.try_parse "\x27abc\x27".toList = some (Expression.str "abc") ∧
    StringExpression.try_parse "\"abc\"".toList = Option.none ∧
    ("\"abc\"".toList.length = 5 ∧
      "\"abc\"".toList.getD 0 ' ' = "\"abc\"".toList.getD 4 ' ') :=
  ⟨rfl, rfl, by decide⟩

/-- C7: for the registered length function, eval_initial on a 3-element array
argument does return its length, but eval_js cannot return `(<arg-js>).length`:
reactive_function.py:57 passes delimiter as an extra positional argument to
eval_js_and_hooks, whose signature (expressions.py:56) accepts only
react_context, so the call raises TypeError. -/
theorem length_function_eval_initial_ok_eval_js_type_error :
    ReactiveFunction.functions.lookup "len" = some LengthFunction.fn ∧
    LengthFunction.eval_initial 5 Option.none [.array [.int 1, .int 2, .int 3]]
      = .ok (.int 3) ∧
    LengthFunction.eval_js 5 Option.none "\x27" [.array [.int 1, .int 2, .int 3]]
      = .error (PErr.typeErr
        "eval_js_and_hooks() takes 2 positional arguments but 3 were given") :=
  ⟨rfl, rfl, rfl⟩

/-- C10: parse_expression is not total on the empty string: trimming runs a
loop whose variable is never bound for an empty input, so Python raises
UnboundLocalError, not the TemplateSyntaxError used for unparseable text; and
parsing `[]` recursively parses the empty interior piece and hits the same
error. -/
theorem parse_expression_empty_input_unbound_local (fuel : Nat) (s : String) :
    parse_expression (fuel + 1) [] = .error PErr.unboundLocal ∧
    parse_expression (fuel + 2) "[]".toList = .error PErr.unboundLocal ∧
    PErr.unboundLocal ≠ PErr.templateSyntaxError s :=
  ⟨rfl, rfl, by simp⟩

/-- C2 amended: while the stack of expected closing characters is non-empty,
smart_split's step at a position never emits a piece and never moves the
piece boundary; the character is compared against the top (popping on a
match), and otherwise a character that opens a known delimiter IS pushed — a
new inner open delimiter encountered while the stack is non-empty is tracked,
contrary to the original claim. -/
theorem smart_split_step_nonempty_stack (full : List Char) (seperator : Char)
    (delimiters : List (Char × Char)) (st : SplitState) (loc : Nat) (c top : Char)
    (rest : List Char) (h : st.stack = top :: rest) :
    smartSplitStep full seperator delimiters st loc c =
      (if c == top then { st with stack := rest }
       else
         match match_and_return_second c delimiters with
         | some d => { st with stack := d :: top :: rest }
         | Option.none => st) ∧
    (smartSplitStep full seperator delimiters st loc c).pieces = st.pieces ∧
    (smartSplitStep full seperator delimiters st loc c).i = st.i := by
  have hstep : smartSplitStep full seperator delimiters st loc c =
      (if c == top then { st with stack := rest }
       else
         match match_and_return_second c delimiters with
         | some d => { st with stack := d :: top :: rest }
         | Option.none => st) := by
    unfold smartSplitStep
    rw [h]
  refine ⟨hstep, ?_, ?_⟩ <;> rw [hstep] <;>
    rcases hc : (c == top) with _ | _ <;>
      simp only [if_pos, if_neg, Bool.false_eq_true, not_false_iff] <;>
      first
      | rfl
      | (rcases match_and_return_second c delimiters with _ | d <;> rfl)

/-- C2 amended, witness: a concrete step with non-empty stack, at the opener
character from the counterexample input. -/
theorem smart_split_step_nonempty_stack_witness :
    smartSplitStep "[(],x)".toList ',' common_delimiters ⟨0, [], [']']⟩ 1 '(' =
      (if '(' == ']' then { SplitState.mk 0 [] [']'] with stack := ([] : List Char) }
       else
         match match_and_return_second '(' common_delimiters with
         | some d => { SplitState.mk 0 [] [']'] with stack := d :: ']' :: [] }
         | Option.none => SplitState.mk 0 [] [']']) ∧
    (smartSplitStep "[(],x)".toList ',' common_delimiters ⟨0, [], [']']⟩ 1 '(').pieces
      = ([] : List (List Char)) ∧
    (smartSplitStep "[(],x)".toList ',' common_delimiters ⟨0, [], [']']⟩ 1 '(').i = 0 :=
  smart_split_step_nonempty_stack "[(],x)".toList ',' common_delimiters
    ⟨0, [], [']']⟩ 1 '(' ']' [] rfl

/-- C3 amended: parse_expression strips the first and last characters and
recurses whenever the trimmed text starts with a `(` and ends with a `)`,
whether or not the two form a matching pair spanning the whole string; no
matching check is performed. -/
theorem parse_expression_unwraps_any_paren_boundary (fuel : Nat) (xs : List Char) :
    parse_expression (fuel + 1) ('(' :: (xs ++ [')'])) = parse_expression fuel xs := by
  have h1 := remove_ws_wrapped '(' ')' xs rfl rfl
  have hlen : ('(' :: (xs ++ [')'])).length - 1 = xs.length + 1 := by
    rw [length_cons_append]
    omega
  have hcond : ((('(' :: (xs ++ [')'])).getD 0 ' ' == '(')
      && (('(' :: (xs ++ [')'])).getD (('(' :: (xs ++ [')'])).length - 1) ' ' == ')')) = true := by
    rw [hlen, getD_cons_append_last]
    rfl
  conv_lhs => unfold parse_expression
  rw [h1]
  simp only [Except.bind, bind, hcond, if_true, interior_cons_append]

theorem dict_try_parse_soft_failure (fuel : Nat) (xs : List Char) (e : PErr)
    (he : DictExpression.parseParts (parse_expression fuel)
        (smart_split xs ',' common_delimiters) = .error e)
    (hnf : e ≠ PErr.outOfFuel) :
    DictExpression.try_parse (parse_expression fuel) ('\x7b' :: (xs ++ ['\x7d']))
      = .ok Option.none ∧
    VariableExpression.try_parse ('\x7b' :: (xs ++ ['\x7d'])) = Option.none ∧
    parse_expression (fuel + 1) ('\x7b' :: (xs ++ ['\x7d'])) =
      (match PropertyExpression.try_parse (parse_expression fuel)
          ('\x7b' :: (xs ++ ['\x7d'])) with
       | .ok (some exp) => .ok exp
       | .ok Option.none =>
         .error (PErr.templateSyntaxError (String.mk ('\x7b' :: (xs ++ ['\x7d']))))
       | .error err => .error err) := by
  have hlen : ('\x7b' :: (xs ++ ['\x7d'])).length = xs.length + 2 :=
    length_cons_append _ _ _
  have hdict : DictExpression.try_parse (parse_expression fuel)
      ('\x7b' :: (xs ++ ['\x7d'])) = .ok Option.none := by
    unfold DictExpression.try_parse
    have hcond : (decide (2 ≤ ('\x7b' :: (xs ++ ['\x7d'])).length)
        && (('\x7b' :: (xs ++ ['\x7d'])).getD 0 ' ' == '\x7b')
        && (('\x7b' :: (xs ++ ['\x7d'])).getD (('\x7b' :: (xs ++ ['\x7d'])).length - 1) ' '
          == '\x7d')) = true := by
      rw [hlen, show xs.length + 2 - 1 = xs.length + 1 by omega, getD_cons_append_last]
      simp
    rw [hcond]
    simp only [Bool.not_true, Bool.false_eq_true, if_false, interior_cons_append]
    rw [he]
    rcases e with p | _ | m | k | m2 | _
    · rfl
    · rfl
    · rfl
    · rfl
    · rfl
    · exact absurd rfl hnf
  have hvar : VariableExpression.try_parse ('\x7b' :: (xs ++ ['\x7d'])) = Option.none := by
    rfl
  refine ⟨hdict, hvar, ?_⟩
  have hstr : StringExpression.try_parse ('\x7b' :: (xs ++ ['\x7d'])) = Option.none := by
    unfold StringExpression.try_parse
    simp
  have harr : ArrayExpression.try_parse (parse_expression fuel)
      ('\x7b' :: (xs ++ ['\x7d'])) = .ok Option.none := by
    unfold ArrayExpression.try_parse
    simp
  have h1 := remove_ws_wrapped '\x7b' '\x7d' xs rfl rfl
  conv_lhs => unfold parse_expression
  rw [h1]
  simp only [Except.bind, bind]
  rw [show ((('\x7b' :: (xs ++ ['\x7d'])).getD 0 ' ' == '(')
      && (('\x7b' :: (xs ++ ['\x7d'])).getD (('\x7b' :: (xs ++ ['\x7d'])).length - 1) ' '
        == ')')) = false from rfl]
  simp only [Bool.false_eq_true, if_false]
  rw [hstr]
  rw [show BoolExpression.try_parse ('\x7b' :: (xs ++ ['\x7d'])) = Option.none from rfl]
  rw [show IntExpression.try_parse ('\x7b' :: (xs ++ ['\x7d'])) = Option.none from rfl]
  rw [show NoneExpression.try_parse ('\x7b' :: (xs ++ ['\x7d'])) = Option.none from rfl]
  rw [harr, hdict]
  simp only [Except.bind]
  rw [hvar]
  rcases hP : PropertyExpression.try_parse (parse_expression fuel)
      ('\x7b' :: (xs ++ ['\x7d'])) with p | v
  · rfl
  · rcases v with _ | exp <;> rfl
/-- C5 witness: the interior `a` has no top-level `:` separator, so
split_part raises; the whole dict attempt reports no-match and
parse_expression ends in the Property attempt. -/
theorem dict_try_parse_soft_failure_witness :
    DictExpression.try_parse (parse_expression 4) ('\x7b' :: ("a".toList ++ ['\x7d']))
      = .ok Option.none ∧
    VariableExpression.try_parse ('\x7b' :: ("a".toList ++ ['\x7d'])) = Option.none ∧
    parse_expression (4 + 1) ('\x7b' :: ("a".toList ++ ['\x7d'])) =
      (match PropertyExpression.try_parse (parse_expression 4)
          ('\x7b' :: ("a".toList ++ ['\x7d'])) with
       | .ok (some exp) => .ok exp
       | .ok Option.none =>
         .error (PErr.templateSyntaxError (String.mk ('\x7b' :: ("a".toList ++ ['\x7d']))))
       | .error err => .error err) :=
  dict_try_parse_soft_failure 4 "a".toList
    (PErr.templateSyntaxError "Can\x27t find key-value seperator \x27:\x27") rfl
    (by decide)

/-- C8: evaluating a Variable with a present react context: an unresolved
name makes eval_initial yield the empty string without error, and
eval_js_and_hooks degrade to the empty-string literal's code with no hooks;
a resolved name makes eval_js_and_hooks return the variable's js_get code
with exactly that variable as the single hook. -/
theorem variable_eval_unresolved_and_resolved (fuel : Nat) (ctx : ReactContext)
    (name : String) :
    (ctx.search_var name = Option.none →
      Expression.eval_initial (fuel + 1) (.var name) (some ctx) = .ok (.str "") ∧
      Expression.eval_js_and_hooks (fuel + 2) (.var name) (some ctx)
        = .ok ("\x27\x27", [])) ∧
    (∀ v : ReactVar, ctx.search_var name = some v →
      Expression.eval_js_and_hooks (fuel + 1) (.var name) (some ctx)
        = .ok (v.js_get, [v])) := by
  constructor
  · intro h
    constructor
    · unfold Expression.eval_initial
      simp only [VariableExpression.var, h, Except.bind, bind]
    · unfold Expression.eval_js_and_hooks
      simp only [VariableExpression.var, h, Except.bind, bind]
      rw [show value_to_expression (ReactValType.str "") = Expression.str "" from by
        unfold value_to_expression
        rfl]
      rfl
  · intro v h
    unfold Expression.eval_js_and_hooks
    simp only [VariableExpression.var, h, Except.bind, bind]

/-- C8 witness: in the sample context the name `q` is unresolved and `x`
resolves to sampleVar. -/
theorem variable_eval_unresolved_and_resolved_witness :
    (Expression.eval_initial (0 + 1) (.var "q") (some sampleCtx) = .ok (.str "") ∧
      Expression.eval_js_and_hooks (0 + 2) (.var "q") (some sampleCtx)
        = .ok ("\x27\x27", [])) ∧
    Expression.eval_js_and_hooks (0 + 1) (.var "x") (some sampleCtx)
      = .ok (sampleVar.js_get, [sampleVar]) :=
  ⟨(variable_eval_unresolved_and_resolved 0 sampleCtx "q").1 (by rfl),
   (variable_eval_unresolved_and_resolved 0 sampleCtx "x").2 sampleVar (by rfl)⟩

/-- C9: `x.y.z` parses to a SettableProperty whose root is the settable
Variable `x`, and js_set on it, in a context resolving `x`, is exactly the
generated path expression, the assignment of the value code, and the root
variable's notify code. -/
theorem settable_property_parse_and_js_set (ctx : ReactContext) (v0 : ReactVar)
    (vjs : String) (hx : ctx.search_var "x" = some v0) :
    parse_expression 5 "x.y.z".toList
      = .ok (.settableProperty (.var "x") ["y", "z"]) ∧
    Expression.js_set 5 (.settableProperty (.var "x") ["y", "z"]) (some ctx) vjs
      = .ok ("(" ++ v0.js_get ++ ")." ++ "y.z" ++ " = " ++ vjs ++ "; " ++ v0.js_notify) := by
  refine ⟨rfl, ?_⟩
  have hroot : Expression.eval_js_and_hooks 4 (.var "x") (some ctx)
      = .ok (v0.js_get, [v0]) := by
    unfold Expression.eval_js_and_hooks
    simp only [VariableExpression.var, hx, Except.bind, bind]
  have hnot : Expression.js_notify (.var "x") (some ctx) = .ok v0.js_notify := by
    unfold Expression.js_notify
    simp only [VariableExpression.var, hx, Except.bind, bind]
  unfold Expression.js_set Expression.eval_js_and_hooks
  simp only [hroot, Except.bind, bind]
  unfold Expression.js_notify
  simp only [hnot, Except.bind, bind]
  rfl

/-- C9 witness: js_set through the sample context's variable `x`. -/
theorem settable_property_parse_and_js_set_witness :
    parse_expression 5 "x.y.z".toList
      = .ok (.settableProperty (.var "x") ["y", "z"]) ∧
    Expression.js_set 5 (.settableProperty (.var "x") ["y", "z"]) (some sampleCtx) "VAL"
      = .ok ("(" ++ sampleVar.js_get ++ ")." ++ "y.z" ++ " = " ++ "VAL" ++ "; "
        ++ sampleVar.js_notify) :=
  settable_property_parse_and_js_set sampleCtx sampleVar "VAL" (by rfl)
